import Mathlib

/-!
Shallow embedding of the BreakoutAI entity-extraction pipeline (`src/app.py`).

The pipeline has three components:
* `WebSearcher.search` wraps the SerpAPI call: it formats the query from the
  prompt template, requests 5 organic results, joins the result snippets with
  newlines (missing `snippet` field defaults to the empty string), and on any
  transport-level failure reports the error and returns the empty string.
* `LLMProcessor.extract_information` wraps the Groq chat-completion call: it
  builds a two-message request (fixed system message plus a user message
  embedding the substituted prompt and the search text), calls the model with
  `model="mixtral-8x7b-32768"`, `max_tokens=150`, `temperature=0.5`, and
  returns the first choice content stripped; on any failure (including an
  empty choices list, an `IndexError` caught by `except Exception`) it reports
  the error and returns the empty string.
* `DataProcessor.process_entities` loops over the entities in order, emits a
  progress signal `(idx+1)/num_entities`, calls search, then either calls the
  extractor (non-empty search text) or records the sentinel `"No data found"`,
  then sleeps 0.5s.

External services are modelled as oracle functions in an `Env`; side effects
(progress signals, outgoing calls, `st.sidebar.error` reports, sleeps) are
modelled as an explicit event trace.  Python string `format` with the single
`\x7bentity\x7d` placeholder is modelled by a template split at the
placeholder; `str.strip()` is `pyStrip` (drop leading and trailing
whitespace).
-/

/-- A prompt template with exactly one entity placeholder: `format` splices the
entity name between the `before` and `after` parts. -/
structure PromptTemplate where
  before : String
  after : String
deriving DecidableEq, Repr

def PromptTemplate.format (p : PromptTemplate) (entity : String) : String :=
  p.before ++ entity ++ p.after

/-- One element of the provider's `organic_results` array; the `snippet` field
may be absent (`result.get("snippet", "")` defaults it). -/
structure OrganicResult where
  snippet : Option String
deriving DecidableEq, Repr

/-- The JSON body of a successful search response; the `organic_results` field
may be absent (`.get("organic_results", [])` defaults it). -/
structure SearchResponse where
  organic_results : Option (List OrganicResult)
deriving DecidableEq, Repr

/-- Outcome of one search call: a transport-level failure
(`requests.exceptions.RequestException`: network error, non-2xx status from
`raise_for_status`, invalid JSON) carrying the message `str(e)`, or a parsed
response body. -/
inductive SearchReply where
  | err (msg : String)
  | ok (resp : SearchResponse)
deriving DecidableEq, Repr

/-- One chat message, `\x7b"role": ..., "content": ...\x7d`. -/
structure ChatMessage where
  role : String
  content : String
deriving DecidableEq, Repr

/-- The request sent to `chat.completions.create`. -/
structure ChatRequest where
  model : String
  messages : List ChatMessage
  max_tokens : Nat
  temperature : Rat
deriving DecidableEq, Repr

/-- One completion choice, exposing `choice.message`. -/
structure Choice where
  message : ChatMessage
deriving DecidableEq, Repr

/-- A successful model response, exposing `response.choices`. -/
structure LLMResponse where
  choices : List Choice
deriving DecidableEq, Repr

/-- Outcome of one model call: any exception (network failure etc.) carrying
`str(e)`, or a response object. -/
inductive LLMReply where
  | err (msg : String)
  | ok (resp : LLMResponse)
deriving DecidableEq, Repr

/-- The two external services, as deterministic oracles: search is keyed by the
query string `q` (the other request params are fixed), the model by the full
chat request. -/
structure Env where
  searchService : String → SearchReply
  llmService : ChatRequest → LLMReply

/-- Observable side effects of a run, in order:
`progress num den` is `st.progress((idx+1)/num_entities)` with the division
recorded unevaluated as numerator/denominator; `searchCall q n` is the HTTP GET
with query `q` and `num=n`; `llmCall req` is the chat-completion call;
`errorMsg m` is `st.sidebar.error(m)`; `sleep` is `time.sleep(0.5)`. -/
inductive Event where
  | progress (num : Nat) (den : Nat)
  | searchCall (q : String) (num : Nat)
  | llmCall (req : ChatRequest)
  | errorMsg (msg : String)
  | sleep
deriving DecidableEq, Repr

def Event.isLLMCall : Event → Bool
  | .llmCall _ => true
  | _ => false

/-- `WebSearcher.search(entity, prompt)` from `src/app.py`: formats the query,
issues the GET with `num=5`, and on success joins the snippets (defaulting a
missing snippet to `""`) with `"\n"`; on a `RequestException` it reports
`"Error during web search: " + str(e)` to the sidebar and returns `""`. -/
def WebSearcher.search (env : Env) (entity : String) (prompt : PromptTemplate) :
    String × List Event :=
  match env.searchService (prompt.format entity) with
  | SearchReply.err e =>
      ("", [Event.searchCall (prompt.format entity) 5,
            Event.errorMsg ("Error during web search: " ++ e)])
  | SearchReply.ok resp =>
      (String.intercalate "\n" ((resp.organic_results.getD []).map
          (fun r => r.snippet.getD "")),
       [Event.searchCall (prompt.format entity) 5])

/-- Drop the longest whitespace run at the head of a character list. -/
def dropWhileWs : List Char → List Char
  | [] => []
  | c :: cs => if c.isWhitespace then dropWhileWs cs else c :: cs

/-- Python `str.strip()`: remove leading and trailing whitespace. -/
def pyStrip (s : String) : String :=
  String.mk ((dropWhileWs (dropWhileWs s.data).reverse).reverse)

/-- The fixed system-role message content. -/
def systemMessageContent : String :=
  "You are a helpful assistant that extracts specific information from web search results."

/-- The user-role message content: the f-string embedding the substituted
prompt and the full search text. -/
def userMessageContent (entity : String) (prompt : PromptTemplate)
    (search_results : String) : String :=
  "Extract information from the following search results based on the prompt: \x27"
    ++ prompt.format entity ++ "\x27\n\nSearch Results:\n" ++ search_results
    ++ "\n\nExtracted Information:"

/-- The chat request built by `extract_information`: the two messages and the
fixed model id, token cap and temperature. -/
def LLMProcessor.buildRequest (entity : String) (prompt : PromptTemplate)
    (search_results : String) : ChatRequest :=
  ⟨"mixtral-8x7b-32768",
   [⟨"system", systemMessageContent⟩,
    ⟨"user", userMessageContent entity prompt search_results⟩],
   150, 1/2⟩

/-- `LLMProcessor.extract_information(entity, prompt, search_results)` from
`src/app.py`: builds the request, calls the model, and returns the first
choice content stripped; any exception (including the `IndexError` raised by
`choices[0]` on an empty list, whose `str(e)` is
`"list index out of range"`) is caught, reported as
`"Error during LLM extraction: " + str(e)`, and `""` is returned. -/
def LLMProcessor.extract_information (env : Env) (entity : String)
    (prompt : PromptTemplate) (search_results : String) : String × List Event :=
  match env.llmService (LLMProcessor.buildRequest entity prompt search_results) with
  | LLMReply.err e =>
      ("", [Event.llmCall (LLMProcessor.buildRequest entity prompt search_results),
            Event.errorMsg ("Error during LLM extraction: " ++ e)])
  | LLMReply.ok resp =>
      match resp.choices with
      | [] =>
          ("", [Event.llmCall (LLMProcessor.buildRequest entity prompt search_results),
                Event.errorMsg "Error during LLM extraction: list index out of range"])
      | c :: _ =>
          (pyStrip c.message.content,
           [Event.llmCall (LLMProcessor.buildRequest entity prompt search_results)])

/-- One output record, `\x7b"Entity": entity, "Extracted Information": ...\x7d`. -/
structure ExtractionRecord where
  entity : String
  extracted : String
deriving DecidableEq, Repr

/-- The body of the `for idx, entity in enumerate(entities)` loop: emit the
progress signal `(idx+1)/n` (recorded unevaluated), call search, then either
call the extractor (when the search text is non-empty, Python truthiness) or
record the sentinel, then sleep. -/
def DataProcessor.processOne (env : Env) (n idx : Nat) (entity : String)
    (prompt : PromptTemplate) : ExtractionRecord × List Event :=
  if (WebSearcher.search env entity prompt).fst ≠ "" then
    (⟨entity, (LLMProcessor.extract_information env entity prompt
        (WebSearcher.search env entity prompt).fst).fst⟩,
     Event.progress (idx + 1) n :: (WebSearcher.search env entity prompt).snd
       ++ (LLMProcessor.extract_information env entity prompt
            (WebSearcher.search env entity prompt).fst).snd
       ++ [Event.sleep])
  else
    (⟨entity, "No data found"⟩,
     Event.progress (idx + 1) n :: (WebSearcher.search env entity prompt).snd
       ++ [Event.sleep])

/-- The loop of `process_entities`, iterating the remaining entities from
index `idx`, with `n` the total entity count. -/
def DataProcessor.processFrom (env : Env) (n idx : Nat) (entities : List String)
    (prompt : PromptTemplate) : List ExtractionRecord × List Event :=
  match entities with
  | [] => ([], [])
  | e :: rest =>
      ((DataProcessor.processOne env n idx e prompt).fst ::
          (DataProcessor.processFrom env n (idx + 1) rest prompt).fst,
       (DataProcessor.processOne env n idx e prompt).snd ++
          (DataProcessor.processFrom env n (idx + 1) rest prompt).snd)

/-- `DataProcessor.process_entities(entities, prompt)` from `src/app.py`:
runs the loop from index 0 with `num_entities = len(entities)` and returns the
accumulated `results` list together with the event trace. -/
def DataProcessor.process_entities (env : Env) (entities : List String)
    (prompt : PromptTemplate) : List ExtractionRecord × List Event :=
  DataProcessor.processFrom env entities.length 0 entities prompt

/-- An env where every external call fails at the transport level. -/
def errEnv : Env :=
  ⟨fun _ => SearchReply.err "boom", fun _ => LLMReply.err "down"⟩

/-- An env where search succeeds with an empty result list. -/
def emptyEnv : Env :=
  ⟨fun _ => SearchReply.ok ⟨some []⟩, fun _ => LLMReply.err "unused"⟩

/-- An env where search succeeds with one snippet and the model errors. -/
def llmErrEnv : Env :=
  ⟨fun _ => SearchReply.ok ⟨some [⟨some "text"⟩]⟩, fun _ => LLMReply.err "api down"⟩

/-- A simple template: query is `"s:" ++ entity`. -/
def idPrompt : PromptTemplate := ⟨"s:", ""⟩

/-- An env where the search for entity `"two"` fails at the transport level
while every other search succeeds with one snippet, and the model always
answers `" Jane "`. -/
def mixedEnv : Env :=
  ⟨fun q => if q = "s:two" then SearchReply.err "net down"
            else SearchReply.ok ⟨some [⟨some "info"⟩]⟩,
   fun _ => LLMReply.ok ⟨[⟨⟨"assistant", " Jane "⟩⟩]⟩⟩

/-- An env where the model answers with padded whitespace. -/
def trimEnv : Env :=
  ⟨fun _ => SearchReply.ok ⟨some [⟨some "text"⟩]⟩,
   fun _ => LLMReply.ok ⟨[⟨⟨"assistant", "  answer text \n"⟩⟩]⟩⟩

/-- The prompt of the end-to-end scenario, `"Who is the ceo of \x7bentity\x7d?"`. -/
def ceoPrompt : PromptTemplate := ⟨"Who is the ceo of ", "?"⟩

/-- The env of the end-to-end scenario: the Acme Corp search yields a snippet,
the Globex search yields a response with no `organic_results`, and the model
answers `"Jane Doe"`. -/
def demoEnv : Env :=
  ⟨fun q => if q = "Who is the ceo of Acme Corp?"
            then SearchReply.ok ⟨some [⟨some "Acme Corp is led by its CEO."⟩]⟩
            else SearchReply.ok ⟨none⟩,
   fun _ => LLMReply.ok ⟨[⟨⟨"assistant", "Jane Doe"⟩⟩]⟩⟩

theorem processOne_entity (env : Env) (n idx : Nat) (e : String)
    (p : PromptTemplate) :
    ((DataProcessor.processOne env n idx e p).fst).entity = e := by
  unfold DataProcessor.processOne
  split <;> rfl

theorem processFrom_map_entity (env : Env) (n : Nat) (p : PromptTemplate) :
    ∀ (es : List String) (idx : Nat),
      ((DataProcessor.processFrom env n idx es p).fst).map ExtractionRecord.entity = es := by
  intro es
  induction es with
  | nil => intro idx; rfl
  | cons e rest ih =>
      intro idx
      simp [DataProcessor.processFrom, processOne_entity, ih (idx + 1)]

theorem processFrom_length (env : Env) (n : Nat) (p : PromptTemplate)
    (es : List String) (idx : Nat) :
    ((DataProcessor.processFrom env n idx es p).fst).length = es.length := by
  have h := congrArg List.length (processFrom_map_entity env n p es idx)
  simpa using h

theorem processFrom_get (env : Env) (n : Nat) (p : PromptTemplate) :
    ∀ (es : List String) (idx i : Nat) (e : String), es[i]? = some e →
      ((DataProcessor.processFrom env n idx es p).fst)[i]? =
        some (DataProcessor.processOne env n (idx + i) e p).fst := by
  intro es
  induction es with
  | nil => intro idx i e h; simp at h
  | cons a rest ih =>
      intro idx i e h
      cases i with
      | zero =>
          simp at h
          subst h
          simp [DataProcessor.processFrom]
      | succ j =>
          simp at h
          have := ih (idx + 1) j e h
          have harith : idx + 1 + j = idx + (j + 1) := by omega
          rw [harith] at this
          simp [DataProcessor.processFrom, this]

theorem search_snd_no_llm (env : Env) (e : String) (p : PromptTemplate) :
    ∀ ev ∈ (WebSearcher.search env e p).snd, ev.isLLMCall = false := by
  intro ev hev
  unfold WebSearcher.search at hev
  cases h : env.searchService (p.format e) with
  | err m =>
      rw [h] at hev
      simp only [List.mem_cons, List.not_mem_nil, or_false] at hev
      rcases hev with rfl | rfl <;> rfl
  | ok resp =>
      rw [h] at hev
      simp only [List.mem_cons, List.not_mem_nil, or_false] at hev
      subst hev
      rfl

theorem processOne_empty_search (env : Env) (n idx : Nat) (e : String)
    (p : PromptTemplate) (h : (WebSearcher.search env e p).fst = "") :
    DataProcessor.processOne env n idx e p =
      (⟨e, "No data found"⟩,
       Event.progress (idx + 1) n :: (WebSearcher.search env e p).snd
         ++ [Event.sleep]) := by
  unfold DataProcessor.processOne
  simp [h]

theorem processOne_nonempty_search (env : Env) (n idx : Nat) (e : String)
    (p : PromptTemplate) (h : (WebSearcher.search env e p).fst ≠ "") :
    DataProcessor.processOne env n idx e p =
      (⟨e, (LLMProcessor.extract_information env e p
              (WebSearcher.search env e p).fst).fst⟩,
       Event.progress (idx + 1) n :: (WebSearcher.search env e p).snd
         ++ (LLMProcessor.extract_information env e p
              (WebSearcher.search env e p).fst).snd
         ++ [Event.sleep]) := by
  unfold DataProcessor.processOne
  simp [h]

theorem search_err (env : Env) (e m : String) (p : PromptTemplate)
    (h : env.searchService (p.format e) = SearchReply.err m) :
    WebSearcher.search env e p =
      ("", [Event.searchCall (p.format e) 5,
            Event.errorMsg ("Error during web search: " ++ m)]) := by
  unfold WebSearcher.search
  rw [h]

theorem search_ok (env : Env) (e : String) (p : PromptTemplate)
    (resp : SearchResponse) (h : env.searchService (p.format e) = SearchReply.ok resp) :
    WebSearcher.search env e p =
      (String.intercalate "\n" ((resp.organic_results.getD []).map
          (fun r => r.snippet.getD "")),
       [Event.searchCall (p.format e) 5]) := by
  unfold WebSearcher.search
  rw [h]

theorem extract_err (env : Env) (e m : String) (p : PromptTemplate) (s : String)
    (h : env.llmService (LLMProcessor.buildRequest e p s) = LLMReply.err m) :
    LLMProcessor.extract_information env e p s =
      ("", [Event.llmCall (LLMProcessor.buildRequest e p s),
            Event.errorMsg ("Error during LLM extraction: " ++ m)]) := by
  unfold LLMProcessor.extract_information
  rw [h]

theorem extract_ok (env : Env) (e : String) (p : PromptTemplate) (s : String)
    (c : Choice) (rest : List Choice)
    (h : env.llmService (LLMProcessor.buildRequest e p s) =
          LLMReply.ok ⟨c :: rest⟩) :
    LLMProcessor.extract_information env e p s =
      (pyStrip c.message.content,
       [Event.llmCall (LLMProcessor.buildRequest e p s)]) := by
  unfold LLMProcessor.extract_information
  rw [h]

/-- C1: for every input sequence of entities and every prompt template, and
for every behavior of the external services (success, failure, malformed or
empty responses), `process_entities` returns exactly one record per input
entity, in input order: the entity fields of the output, in order, are exactly
the input list, so in particular the output length equals the input length. -/
theorem process_entities_cardinality (env : Env) (entities : List String)
    (prompt : PromptTemplate) :
    ((DataProcessor.process_entities env entities prompt).fst).map
        ExtractionRecord.entity = entities ∧
    ((DataProcessor.process_entities env entities prompt).fst).length =
        entities.length := by
  exact ⟨processFrom_map_entity env entities.length prompt entities 0,
         processFrom_length env entities.length prompt entities 0⟩

/-- C9: end-to-end scenario: entities `["Acme Corp", "Globex"]` with prompt
`"Who is the ceo of \x7bentity\x7d?"`; the Acme Corp search yields a snippet
(non-empty text) and the model answers `"Jane Doe"`, the Globex search returns
no organic results; the result is exactly the two records
`\x7bAcme Corp, Jane Doe\x7d` and `\x7bGlobex, No data found\x7d` in order. -/
theorem process_entities_end_to_end :
    (DataProcessor.process_entities demoEnv ["Acme Corp", "Globex"] ceoPrompt).fst =
      [⟨"Acme Corp", "Jane Doe"⟩, ⟨"Globex", "No data found"⟩] := by
  decide

/-- C10: for the empty input sequence, `process_entities` returns the empty
result list and an empty event trace: no progress emission, no search call,
no extraction call (so the division `(idx+1)/num_entities` in the progress
computation, recorded as a `progress` event, is never evaluated). -/
theorem process_entities_empty_input (env : Env) (prompt : PromptTemplate) :
    DataProcessor.process_entities env [] prompt = ([], []) := rfl

/-- An env where search always succeeds with the organic results
`[\x7bsnippet: "a"\x7d, \x7bsnippet: "b"\x7d, \x7b\x7d]`. -/
def abEnv : Env :=
  ⟨fun _ => SearchReply.ok ⟨some [⟨some "a"⟩, ⟨some "b"⟩, ⟨none⟩]⟩,
   fun _ => LLMReply.err "unused"⟩

/-- An env where search always succeeds with a body lacking `organic_results`. -/
def noneEnv : Env :=
  ⟨fun _ => SearchReply.ok ⟨none⟩, fun _ => LLMReply.err "unused"⟩

/-- C2: if the search adapter returns an empty `SearchResultText` for entity
`E` at position `i`, the record produced for `E` has extracted value exactly
`"No data found"`, and the extraction adapter is never invoked for `E`: the
event trace of `E`'s loop iteration contains no `llmCall` event. -/
theorem sentinel_correctness (env : Env) (es : List String) (p : PromptTemplate)
    (i : Nat) (e : String) (he : es[i]? = some e)
    (hempty : (WebSearcher.search env e p).fst = "") :
    ((DataProcessor.process_entities env es p).fst)[i]? =
      some ⟨e, "No data found"⟩ ∧
    ∀ ev ∈ (DataProcessor.processOne env es.length i e p).snd,
      ev.isLLMCall = false := by
  have hg := processFrom_get env es.length p es 0 i e he
  rw [Nat.zero_add] at hg
  constructor
  · unfold DataProcessor.process_entities
    rw [hg, processOne_empty_search env es.length i e p hempty]
  · intro ev hev
    rw [processOne_empty_search env es.length i e p hempty] at hev
    rcases List.mem_cons.mp hev with rfl | hev2
    · rfl
    · rcases List.mem_append.mp hev2 with hev3 | hev4
      · exact search_snd_no_llm env e p ev hev3
      · rw [List.mem_singleton.mp hev4]
        rfl

theorem sentinel_correctness_witness :
    ((DataProcessor.process_entities emptyEnv ["x"] idPrompt).fst)[0]? =
      some ⟨"x", "No data found"⟩ ∧
    ∀ ev ∈ (DataProcessor.processOne emptyEnv 1 0 "x" idPrompt).snd,
      ev.isLLMCall = false :=
  sentinel_correctness emptyEnv ["x"] idPrompt 0 "x" rfl rfl

/-- C3: no error while processing a single entity terminates the run: for
every behavior of the external services — each reply may be a transport error,
a malformed body (missing `organic_results` or `snippet` fields, empty
`choices`), or a success — the orchestrator is a total function producing one
record per entity, and each record is exactly the one computed by that
entity's own loop iteration, so the loop always continues to the next entity
and no exception crosses the pipeline boundary. -/
theorem no_error_terminates_run (env : Env) (es : List String)
    (p : PromptTemplate) :
    ((DataProcessor.process_entities env es p).fst).length = es.length ∧
    ∀ (i : Nat) (e : String), es[i]? = some e →
      ((DataProcessor.process_entities env es p).fst)[i]? =
        some (DataProcessor.processOne env es.length i e p).fst := by
  constructor
  · exact processFrom_length env es.length p es 0
  · intro i e he
    have hg := processFrom_get env es.length p es 0 i e he
    rw [Nat.zero_add] at hg
    exact hg

theorem no_error_terminates_run_witness :
    ((DataProcessor.process_entities errEnv ["x", "y"] idPrompt).fst).length = 2 ∧
    ((DataProcessor.process_entities errEnv ["x", "y"] idPrompt).fst)[1]? =
      some (DataProcessor.processOne errEnv 2 1 "y" idPrompt).fst :=
  ⟨(no_error_terminates_run errEnv ["x", "y"] idPrompt).1,
   (no_error_terminates_run errEnv ["x", "y"] idPrompt).2 1 "y" rfl⟩

/-- C4: on a successful search response the adapter requests 5 results and
returns the snippets joined with newline separators in provider order, with a
missing snippet defaulting to `""`; for organic results
`[\x7bsnippet: "a"\x7d, \x7bsnippet: "b"\x7d, \x7b\x7d]` it returns `"a\nb\n"`,
and for a response with no `organic_results` it returns `""`. -/
theorem snippet_join_correctness (env env2 : Env) (e : String)
    (p : PromptTemplate) (results : List OrganicResult)
    (h : env.searchService (p.format e) = SearchReply.ok ⟨some results⟩)
    (h2 : env2.searchService (p.format e) = SearchReply.ok ⟨none⟩) :
    WebSearcher.search env e p =
      (String.intercalate "\n" (results.map (fun r => r.snippet.getD "")),
       [Event.searchCall (p.format e) 5]) ∧
    (results = [⟨some "a"⟩, ⟨some "b"⟩, ⟨none⟩] →
      (WebSearcher.search env e p).fst = "a\nb\n") ∧
    WebSearcher.search env2 e p = ("", [Event.searchCall (p.format e) 5]) := by
  refine ⟨search_ok env e p ⟨some results⟩ h, ?_, ?_⟩
  · intro hr
    rw [search_ok env e p ⟨some results⟩ h, hr]
    rfl
  · rw [search_ok env2 e p ⟨none⟩ h2]
    rfl

theorem snippet_join_correctness_witness :
    (WebSearcher.search abEnv "x" idPrompt).fst = "a\nb\n" ∧
    WebSearcher.search noneEnv "x" idPrompt = ("", [Event.searchCall "s:x" 5]) :=
  ⟨(snippet_join_correctness abEnv noneEnv "x" idPrompt
      [⟨some "a"⟩, ⟨some "b"⟩, ⟨none⟩] rfl rfl).2.1 rfl,
   (snippet_join_correctness abEnv noneEnv "x" idPrompt
      [⟨some "a"⟩, ⟨some "b"⟩, ⟨none⟩] rfl rfl).2.2⟩

/-- C5: on a successful model call the extraction adapter returns the first
choice's message content with leading and trailing whitespace removed; for a
content of `"  answer text \n"` it returns `"answer text"`. -/
theorem trim_correctness (env : Env) (e : String) (p : PromptTemplate)
    (s c role : String) (rest : List Choice)
    (h : env.llmService (LLMProcessor.buildRequest e p s) =
          LLMReply.ok ⟨⟨⟨role, c⟩⟩ :: rest⟩) :
    (LLMProcessor.extract_information env e p s).fst = pyStrip c ∧
    (c = "  answer text \n" →
      (LLMProcessor.extract_information env e p s).fst = "answer text") := by
  have hx := extract_ok env e p s ⟨⟨role, c⟩⟩ rest h
  constructor
  · rw [hx]
  · intro hc
    rw [hx]
    simp only [hc]
    decide

theorem trim_correctness_witness :
    (LLMProcessor.extract_information trimEnv "x" idPrompt "text").fst =
      "answer text" :=
  (trim_correctness trimEnv "x" idPrompt "text" "  answer text \n" "assistant"
      [] rfl).2 rfl

/-- C6: if the search call for the entity at position `i` fails at the
transport level, the adapter reports `"Error during web search: ..."` to the
observability sink and returns the empty text (no exception), that entity's
record becomes the `"No data found"` sentinel, and every other entity whose
own search succeeds with non-empty text and whose own model call succeeds
still produces its normal (non-sentinel, non-error) record. -/
theorem search_soft_failure (env : Env) (es : List String) (p : PromptTemplate)
    (i : Nat) (e m : String) (he : es[i]? = some e)
    (herr : env.searchService (p.format e) = SearchReply.err m) :
    WebSearcher.search env e p =
      ("", [Event.searchCall (p.format e) 5,
            Event.errorMsg ("Error during web search: " ++ m)]) ∧
    ((DataProcessor.process_entities env es p).fst)[i]? =
      some ⟨e, "No data found"⟩ ∧
    ∀ (j : Nat) (ej : String) (c : Choice) (rest : List Choice),
      es[j]? = some ej →
      (WebSearcher.search env ej p).fst ≠ "" →
      env.llmService (LLMProcessor.buildRequest ej p
          (WebSearcher.search env ej p).fst) = LLMReply.ok ⟨c :: rest⟩ →
      ((DataProcessor.process_entities env es p).fst)[j]? =
        some ⟨ej, pyStrip c.message.content⟩ := by
  have hs := search_err env e m p herr
  have hempty : (WebSearcher.search env e p).fst = "" := by rw [hs]
  refine ⟨hs, ?_, ?_⟩
  · have hg := processFrom_get env es.length p es 0 i e he
    rw [Nat.zero_add] at hg
    unfold DataProcessor.process_entities
    rw [hg, processOne_empty_search env es.length i e p hempty]
  · intro j ej c rest hej hne hok
    have hg := processFrom_get env es.length p es 0 j ej hej
    rw [Nat.zero_add] at hg
    unfold DataProcessor.process_entities
    rw [hg, processOne_nonempty_search env es.length j ej p hne,
        extract_ok env ej p (WebSearcher.search env ej p).fst c rest hok]

theorem search_soft_failure_witness :
    ((DataProcessor.process_entities mixedEnv ["one", "two", "three"]
        idPrompt).fst)[1]? = some ⟨"two", "No data found"⟩ ∧
    ((DataProcessor.process_entities mixedEnv ["one", "two", "three"]
        idPrompt).fst)[0]? = some ⟨"one", "Jane"⟩ := by
  have h := search_soft_failure mixedEnv ["one", "two", "three"] idPrompt 1
    "two" "net down" rfl rfl
  exact ⟨h.2.1, h.2.2 0 "one" ⟨⟨"assistant", " Jane "⟩⟩ [] rfl (by decide) rfl⟩

/-- C7: for an entity with non-empty search text whose model call fails, the
extraction adapter reports `"Error during LLM extraction: ..."` and returns
the empty text, and the orchestrator records `\x7bentity, ""\x7d` — the empty
string, which is not the `"No data found"` sentinel — while the batch
continues. -/
theorem llm_soft_failure (env : Env) (es : List String) (p : PromptTemplate)
    (i : Nat) (e m : String) (he : es[i]? = some e)
    (hne : (WebSearcher.search env e p).fst ≠ "")
    (herr : env.llmService (LLMProcessor.buildRequest e p
              (WebSearcher.search env e p).fst) = LLMReply.err m) :
    LLMProcessor.extract_information env e p (WebSearcher.search env e p).fst =
      ("", [Event.llmCall (LLMProcessor.buildRequest e p
              (WebSearcher.search env e p).fst),
            Event.errorMsg ("Error during LLM extraction: " ++ m)]) ∧
    ((DataProcessor.process_entities env es p).fst)[i]? = some ⟨e, ""⟩ ∧
    (ExtractionRecord.mk e "").extracted ≠ "No data found" := by
  have hx := extract_err env e m p (WebSearcher.search env e p).fst herr
  refine ⟨hx, ?_, ?_⟩
  · have hg := processFrom_get env es.length p es 0 i e he
    rw [Nat.zero_add] at hg
    unfold DataProcessor.process_entities
    rw [hg, processOne_nonempty_search env es.length i e p hne, hx]
  · show ("" : String) ≠ "No data found"
    decide

theorem llm_soft_failure_witness :
    ((DataProcessor.process_entities llmErrEnv ["x"] idPrompt).fst)[0]? =
      some ⟨"x", ""⟩ :=
  (llm_soft_failure llmErrEnv ["x"] idPrompt 0 "x" "api down" rfl (by decide)
    rfl).2.1

/-- C8: for every entity, prompt, and non-empty search text, the extraction
adapter's first emitted event is the completion call, whose request consists
of exactly two messages — the fixed system-role message and the user-role
message embedding the substituted prompt and the full search text — with the
fixed model identifier, `max_tokens` 150, and `temperature` 0.5. -/
theorem request_construction (env : Env) (e : String) (p : PromptTemplate)
    (s : String) (hs : s ≠ "") :
    (LLMProcessor.extract_information env e p s).snd.head? =
      some (Event.llmCall (LLMProcessor.buildRequest e p s)) ∧
    LLMProcessor.buildRequest e p s =
      ⟨"mixtral-8x7b-32768",
       [⟨"system",
         "You are a helpful assistant that extracts specific information from web search results."⟩,
        ⟨"user",
         "Extract information from the following search results based on the prompt: \x27"
           ++ p.format e ++ "\x27\n\nSearch Results:\n" ++ s
           ++ "\n\nExtracted Information:"⟩],
       150, 1/2⟩ ∧
    (LLMProcessor.buildRequest e p s).messages.length = 2 := by
  refine ⟨?_, rfl, rfl⟩
  unfold LLMProcessor.extract_information
  rcases h : env.llmService (LLMProcessor.buildRequest e p s) with m | resp
  · rfl
  · obtain ⟨choices⟩ := resp
    cases choices with
    | nil => rfl
    | cons c cs => rfl

theorem request_construction_witness :
    (LLMProcessor.extract_information errEnv "x" idPrompt "t").snd.head? =
      some (Event.llmCall (LLMProcessor.buildRequest "x" idPrompt "t")) ∧
    (LLMProcessor.buildRequest "x" idPrompt "t").messages.length = 2 :=
  ⟨(request_construction errEnv "x" idPrompt "t" (by decide)).1,
   (request_construction errEnv "x" idPrompt "t" (by decide)).2.2⟩
